import Mathlib

/-!
Verification development for the faltuai.fun backend orchestration core.

This file gives a shallow embedding, in Lean 4, of the parts of the
repository that the specification's testable properties talk about:

* `StockAnalysis`: the LangGraph stock-analysis workflow of
  `app/services/stock_analysis_service.py` (nodes, the drafting router,
  the graph run under a recursion limit, and `run_analysis`).
* `MarketResearch`: the research-aggregation entry point
  `app/services/market_research_agent.py` (`research_market_trends`)
  over `app/services/common/llm_service.py`.
* `MRCache`: the market-research query cache
  `app/services/data_sources/cache_service.py` together with the key
  generation of `app/models/market_research_cache.py`.
* `StockDB`: the stock-analysis cache of
  `app/services/database/stock_analysis_service.py`
  (`get_cached_data` / `invalidate_cache`).

External effects (LLM calls, the web-search tool, database commits) are
modelled as explicit oracles so that the control flow of the translated
code can be proved about for every possible behaviour of those effects.
Machine details that cannot influence the verified control flow (exact
prompt wording, SHA-256 digesting of an already-canonical string, wall
clock representation) are modelled by injective stand-ins and noted at
their definitions.
-/

/-- Update the first element of a list satisfying `p` by `f`, leaving the
rest unchanged.  This models an SQLAlchemy `query(...).first()` row being
mutated in place and committed. -/
def updateFirst {α : Type} (p : α → Bool) (f : α → α) : List α → List α
  | [] => []
  | e :: rest => if p e then f e :: rest else e :: updateFirst p f rest

namespace StockAnalysis

/-- Does `needle` occur at the head of `hay`? -/
def occursAt : List Char → List Char → Bool
  | [], _ => true
  | _ :: _, [] => false
  | a :: as, b :: bs => a == b && occursAt as bs

/-- Does `needle` occur contiguously anywhere in `hay`? -/
def hasSub (needle : List Char) : List Char → Bool
  | [] => occursAt needle []
  | c :: rest => occursAt needle (c :: rest) || hasSub needle rest

/-- Python's substring test `needle in hay`. -/
def strContains (hay needle : String) : Bool :=
  hasSub needle.toList hay.toList

/-- The LangGraph state `StockAnalysisState` of
`app/services/stock_analysis_service.py` (a `TypedDict`; every key is
present from the initial state on). -/
structure StockAnalysisState where
  user_question : String
  stock_symbol : String
  stock_name : String
  analysis_plan : String
  research_data : String
  drafted_sections : List String
  final_report : String
  model_name : String
  error : String
  deriving DecidableEq, Repr

/-- Outcome of one call to the generative backend (`LLMService.call_sync`):
either the returned text or a raised exception's message. -/
inductive LLMResult where
  | ok (text : String)
  | err (msg : String)
  deriving DecidableEq, Repr

/-- Oracle for all external effects of one workflow run: the planning LLM
call, the Serper search tool, the drafting LLM call of each iteration
(indexed by how many drafting iterations already happened, which
determines the call deterministically), and the assembly LLM call as a
function of the cleaned drafted sections that populate its prompt. -/
structure Oracle where
  planLLM : LLMResult
  searchTool : LLMResult
  draftLLM : Nat → LLMResult
  assembleLLM : List String → LLMResult

/-- The initial state built by `StockAnalysisService.run_analysis`. -/
def initialState (user_question stock_symbol stock_name : String) :
    StockAnalysisState :=
  { user_question := user_question
    stock_symbol := stock_symbol
    stock_name := stock_name
    analysis_plan := ""
    research_data := ""
    drafted_sections := []
    final_report := ""
    model_name := "gpt-4o-mini"
    error := "" }

/-- `StockAnalysisAgent.research_plan_node`: on success the returned
partial update sets `analysis_plan` and `model_name`; on an exception the
node catches it and sets `error`. -/
def research_plan_node (o : Oracle) (s : StockAnalysisState) :
    StockAnalysisState :=
  match o.planLLM with
  | .ok plan => { s with analysis_plan := plan, model_name := "gpt-4o-mini" }
  | .err m => { s with error := "Failed to generate research plan: " ++ m }

/-- `StockAnalysisAgent.fetch_data_node`: sets `research_data` from the
search tool, or `error` on an exception. -/
def fetch_data_node (o : Oracle) (s : StockAnalysisState) :
    StockAnalysisState :=
  match o.searchTool with
  | .ok research_data => { s with research_data := research_data }
  | .err m => { s with error := "Failed to fetch data: " ++ m }

/-- `StockAnalysisAgent.draft_sections_node` for drafting iteration `idx`:
appends the newly drafted section, or sets `error` on an exception. -/
def draft_sections_node (o : Oracle) (idx : Nat) (s : StockAnalysisState) :
    StockAnalysisState :=
  match o.draftLLM idx with
  | .ok new_section =>
      { s with drafted_sections := s.drafted_sections ++ [new_section] }
  | .err m => { s with error := "Failed to draft section: " ++ m }

/-- `StockAnalysisAgent.route_drafting`: look at the most recent drafted
fragment (or `""` when none) and exit the loop exactly when it contains
the substring `"PLAN_COMPLETE"`. -/
def route_drafting (s : StockAnalysisState) : String :=
  let last_chunk :=
    match s.drafted_sections.getLast? with
    | some c => c
    | none => ""
  if strContains last_chunk "PLAN_COMPLETE" then "assemble_report"
  else "draft_sections"

/-- The list comprehension of `assemble_report_node`:
`[s for s in state["drafted_sections"] if s != 'PLAN_COMPLETE']`. -/
def clean_drafted_sections (sections : List String) : List String :=
  sections.filter (fun s => !(s == "PLAN_COMPLETE"))

/-- `StockAnalysisAgent.assemble_report_node`: the assembly LLM is invoked
on the cleaned drafted sections (which populate its prompt); sets
`final_report`, or `error` on an exception. -/
def assemble_report_node (o : Oracle) (s : StockAnalysisState) :
    StockAnalysisState :=
  match o.assembleLLM (clean_drafted_sections s.drafted_sections) with
  | .ok report => { s with final_report := report }
  | .err m => { s with error := "Failed to compile final report: " ++ m }

/-- The nodes registered in `StockAnalysisService._build_graph`. -/
inductive NodeName where
  | research_plan
  | fetch_data
  | draft_sections
  | assemble_report
  deriving DecidableEq, Repr

/-- Result of one graph run: the reached state, the number of executions
of the drafting node, the sequence of executed nodes, and whether the run
was aborted by LangGraph's `GraphRecursionError` (the recursion limit was
exhausted before `END` was reached). -/
structure RunResult where
  final : StockAnalysisState
  drafts : Nat
  trace : List NodeName
  exhausted : Bool
  deriving Repr

/-- The compiled LangGraph of `_build_graph`, run under a superstep
budget: `START → research_plan → fetch_data → draft_sections`, then the
conditional edge `route_drafting` either loops `draft_sections → itself`
or takes `assemble_report → END`.  Each node execution is one LangGraph
superstep; when the remaining budget hits zero before `END`, the run
raises `GraphRecursionError` (`exhausted := true`). -/
def runFrom (o : Oracle) (node : NodeName) (s : StockAnalysisState)
    (drafts : Nat) : Nat → RunResult
  | 0 => { final := s, drafts := drafts, trace := [], exhausted := true }
  | fuel + 1 =>
    match node with
    | .research_plan =>
      let r := runFrom o .fetch_data (research_plan_node o s) drafts fuel
      { r with trace := NodeName.research_plan :: r.trace }
    | .fetch_data =>
      let r := runFrom o .draft_sections (fetch_data_node o s) drafts fuel
      { r with trace := NodeName.fetch_data :: r.trace }
    | .draft_sections =>
      let s2 := draft_sections_node o drafts s
      if route_drafting s2 = "assemble_report" then
        let r := runFrom o .assemble_report s2 (drafts + 1) fuel
        { r with trace := NodeName.draft_sections :: r.trace }
      else
        let r := runFrom o .draft_sections s2 (drafts + 1) fuel
        { r with trace := NodeName.draft_sections :: r.trace }
    | .assemble_report =>
      { final := assemble_report_node o s, drafts := drafts,
        trace := [NodeName.assemble_report], exhausted := false }

/-- `StockAnalysisService.MAX_SECTIONS`. -/
def MAX_SECTIONS : Nat := 10

/-- The dictionary returned by `run_analysis` (`None`-valued lookups of
`dict.get` are modelled by `Option`). -/
structure AnalysisResult where
  question : Option String
  stock_symbol : Option String
  stock_name : Option String
  analysis_plan : Option String
  research_data : Option String
  final_report : Option String
  model : Option String
  error : Option String
  deriving DecidableEq, Repr

/-- `StockAnalysisService.run_analysis`.  The graph is streamed with
`recursion_limit = MAX_SECTIONS + 4`.  On `GraphRecursionError` the
`except` branch returns only the question and an error string.  On a
normal finish the code keeps just the last streamed update (LangGraph's
default `updates` stream mode yields per-node partial updates), which
comes from `assemble_report`: when that update carries `final_report` the
result has exactly that field populated, otherwise every `dict.get`
lookup misses. -/
def run_analysis (o : Oracle) (user_question stock_symbol stock_name : String) :
    AnalysisResult :=
  let r := runFrom o NodeName.research_plan
    (initialState user_question stock_symbol stock_name) 0 (MAX_SECTIONS + 4)
  if r.exhausted then
    { question := some user_question, stock_symbol := none,
      stock_name := none, analysis_plan := none, research_data := none,
      final_report := none, model := none,
      error := some "Analysis workflow failed: GraphRecursionError" }
  else
    match o.assembleLLM (clean_drafted_sections r.final.drafted_sections) with
    | .ok report =>
      { question := none, stock_symbol := none, stock_name := none,
        analysis_plan := none, research_data := none,
        final_report := some report, model := none, error := none }
    | .err _ =>
      { question := none, stock_symbol := none, stock_name := none,
        analysis_plan := none, research_data := none, final_report := none,
        model := none, error := none }

/-- Adversarial backend for the drafting loop: the drafted text never
contains the termination signal `PLAN_COMPLETE`. -/
def advOracleC1 : Oracle :=
  { planLLM := .ok "1. Executive Summary ..."
    searchTool := .ok "AAPL latest financial data"
    draftLLM := fun _ => .ok "More analysis follows."
    assembleLLM := fun _ => .ok "Final report" }

/-- Drafted fragments of the claim's Scenario B. -/
def c3state : StockAnalysisState :=
  { initialState "Should I buy MSFT?" "MSFT" "Microsoft" with
    drafted_sections := ["S1", "S2", "PLAN_COMPLETE"] }

/-- Adversarial backend for claim C4. -/
def advOracleC4 : Oracle :=
  { planLLM := .ok "plan text"
    searchTool := .ok "search results"
    draftLLM := fun _ => .ok "Yet another section."
    assembleLLM := fun _ => .ok "assembled" }

/-- Backend for claim C5: the planning LLM call raises, every later call
succeeds. -/
def advOracleC5 : Oracle :=
  { planLLM := .err "LLM service error: upstream 500"
    searchTool := .ok "NVDA latest financials"
    draftLLM := fun _ => .ok "PLAN_COMPLETE"
    assembleLLM := fun _ => .ok "Degraded report" }

/-- Backend for the C5 witness: every external call of every node
raises. -/
def failAllOracle : Oracle :=
  { planLLM := .err "plan down"
    searchTool := .err "search down"
    draftLLM := fun _ => .err "draft down"
    assembleLLM := fun _ => .err "assemble down" }

end StockAnalysis

namespace MarketResearch

/-- A parsed structured JSON object (`Dict[str, Any]`), abstracted as an
association list. -/
abbrev Dict := List (String × String)

/-- Outcome of one `LLMService.generate_structured_response` call: the
parsed JSON object, or the message of the exception it raises (an LLM
transport failure re-raised by `call_async`, or the `Invalid JSON
response from LLM` error of a failed `json.loads`). -/
inductive StructuredResult where
  | ok (payload : Dict)
  | raise (msg : String)
  deriving DecidableEq, Repr

/-- The bundle returned by `MarketResearchAgent.research_market_trends`
when it returns at all. -/
structure ResearchBundle where
  market_demand : Dict
  skill_gaps : Dict
  career_paths : Dict
  learning_resources : Dict
  industry_developments : Dict
  market_insights : Dict
  research_timestamp : String
  research_version : String
  deriving DecidableEq, Repr

/-- Oracle for the six per-source `generate_structured_response` calls of
one `research_market_trends` run, in their call order. -/
structure ResearchOracle where
  demand : StructuredResult
  skills : StructuredResult
  careers : StructuredResult
  resources : StructuredResult
  industry : StructuredResult
  synth : StructuredResult

/-- `MarketResearchAgent.research_market_trends`: the six per-source
calls are awaited one after another with no surrounding `try`/`except`,
so the first call that raises propagates its exception to the caller
(`Except.error`); only if all six succeed is the bundle (with
`research_timestamp` and `research_version = "fresh_2025_q4"`) built. -/
def research_market_trends (o : ResearchOracle)
    (topic experience_level research_timestamp : String) :
    Except String ResearchBundle :=
  match o.demand with
  | .raise m => .error m
  | .ok demand_research =>
  match o.skills with
  | .raise m => .error m
  | .ok skills_analysis =>
  match o.careers with
  | .raise m => .error m
  | .ok career_research =>
  match o.resources with
  | .raise m => .error m
  | .ok learning_resources =>
  match o.industry with
  | .raise m => .error m
  | .ok industry_news =>
  match o.synth with
  | .raise m => .error m
  | .ok market_insights =>
    .ok { market_demand := demand_research
          skill_gaps := skills_analysis
          career_paths := career_research
          learning_resources := learning_resources
          industry_developments := industry_news
          market_insights := market_insights
          research_timestamp := research_timestamp
          research_version := "fresh_2025_q4" }

/-- Oracle in which exactly one per-source call (skill-gap analysis)
raises and every sibling succeeds. -/
def oracleOneFailure : ResearchOracle :=
  { demand := .ok [("demand_level", "High")]
    skills := .raise "Invalid JSON response from LLM: Expecting value"
    careers := .ok [("career_timeline", "...")]
    resources := .ok [("online_courses", "...")]
    industry := .ok [("industry_shifts", "...")]
    synth := .ok [("critical_skills_now", "...")] }

/-- Oracle in which every per-source call succeeds. -/
def oracleAllOk : ResearchOracle :=
  { demand := .ok [("demand_level", "High")]
    skills := .ok [("high_demand_skills", "Rust")]
    careers := .ok [("career_timeline", "Junior")]
    resources := .ok [("online_courses", "CS101")]
    industry := .ok [("industry_shifts", "AI")]
    synth := .ok [("critical_skills_now", "LLMs")] }

/-- Oracle in which exactly the call at position `k` (0 = demand,
1 = skills, 2 = careers, 3 = resources, 4 = industry, 5 = synthesis)
raises and every other call succeeds. -/
def oracleFailAt (k : Nat) : ResearchOracle :=
  { demand := if k = 0 then .raise "boom0" else .ok [("demand_level", "High")]
    skills := if k = 1 then .raise "boom1" else .ok [("skills", "s")]
    careers := if k = 2 then .raise "boom2" else .ok [("careers", "c")]
    resources := if k = 3 then .raise "boom3" else .ok [("resources", "r")]
    industry := if k = 4 then .raise "boom4" else .ok [("industry", "i")]
    synth := if k = 5 then .raise "boom5" else .ok [("insights", "m")] }

end MarketResearch

namespace MRCache

/-- Query parameters (`**query_params`): a Python keyword dict, i.e. an
association list whose keys are pairwise distinct. -/
abbrev Params := List (String × String)

/-- A cached JSON payload (`Dict[str, Any]`).  The empty list models the
empty dict `{}` — which is falsy in Python. -/
abbrev Payload := List (String × String)

/-- Lexicographic comparison of strings as code-point lists: Python's
`str` comparison used by `sorted`/`sort_keys`. -/
def charListLe : List Char → List Char → Bool
  | [], _ => true
  | _ :: _, [] => false
  | a :: as, b :: bs =>
    if a.toNat < b.toNat then true
    else if b.toNat < a.toNat then false
    else charListLe as bs

/-- The key order used by `json.dumps(kwargs, sort_keys=True)`. -/
def keyLe (a b : String × String) : Prop :=
  charListLe a.1.toList b.1.toList = true

instance : DecidableRel keyLe := fun a b =>
  inferInstanceAs (Decidable (charListLe a.1.toList b.1.toList = true))

/-- `json.dumps(kwargs, sort_keys=True)` sorts the parameters by key;
modelled with Mathlib's insertion sort under the key order. -/
def sortByKey (l : Params) : Params :=
  List.insertionSort keyLe l

/-- One `"key": "value"` item of the JSON dump. -/
def serializeEntry (p : String × String) : String :=
  "\"" ++ p.1 ++ "\": \"" ++ p.2 ++ "\""

/-- The comma-separated body of the JSON dump of a sorted dict. -/
def serializeSorted : Params → String
  | [] => ""
  | [p] => serializeEntry p
  | p :: q :: rest => serializeEntry p ++ ", " ++ serializeSorted (q :: rest)

/-- `MarketResearchCache.generate_cache_key`: the SHA-256 digest of
`f"{source}:{json.dumps(kwargs, sort_keys=True)}"`.  SHA-256 is a fixed
deterministic function of its input string, so for the equality
properties proved here it is modelled by the input string itself (equal
inputs give equal digests). -/
def generate_cache_key (source : String) (params : Params) : String :=
  source ++ ":" ++ "\x7b" ++ serializeSorted (sortByKey params) ++ "\x7d"

/-- One row of the `market_research_cache` table.  Timestamps are hours
on an abstract clock; `expires_at = created-time + cache_hours`. -/
structure CacheEntry where
  cache_key : String
  source : String
  query_params : Params
  response_data : Payload
  created_at : Nat
  expires_at : Nat
  hit_count : Nat
  last_accessed_at : Nat
  deriving DecidableEq, Repr

/-- The cache table. -/
abbrev Store := List CacheEntry

/-- Outcome of the `fetch_function` coroutine: a payload, or a raised
exception's message. -/
inductive FetchBehavior where
  | ok (payload : Payload)
  | raise (msg : String)
  deriving DecidableEq, Repr

/-- External circumstances of one `get_or_fetch` call: the current
`datetime.utcnow()`, the fetch function's behaviour, and whether the
database commit inside `_store_in_cache` raises (in which case that
method rolls back and swallows the exception). -/
structure CacheEnv where
  now : Nat
  fetchResult : FetchBehavior
  storeCommitFails : Bool

/-- `MarketResearchCacheService._get_from_cache`: first row whose
`cache_key` matches and whose `expires_at` lies in the future. -/
def get_from_cache (now : Nat) (db : Store) (key : String) :
    Option Payload :=
  match db.find? (fun e => e.cache_key == key && decide (now < e.expires_at)) with
  | some e => some e.response_data
  | none => none

/-- Python truthiness of `cached_data` (`None` and `{}` are falsy). -/
def pyTruthy : Option Payload → Bool
  | none => false
  | some d => !d.isEmpty

/-- `MarketResearchCacheService._increment_hit_count`. -/
def increment_hit_count (now : Nat) (db : Store) (key : String) : Store :=
  updateFirst (fun e => e.cache_key == key)
    (fun e => { e with hit_count := e.hit_count + 1, last_accessed_at := now })
    db

/-- `MarketResearchCacheService._store_in_cache`: update the existing row
or insert a new one, then commit; if the commit raises, roll back (the
store is unchanged) and swallow the exception. -/
def store_in_cache (env : CacheEnv) (db : Store) (key source : String)
    (params : Params) (data : Payload) (cache_hours : Nat) : Store :=
  if env.storeCommitFails then db
  else
    match db.find? (fun e => e.cache_key == key) with
    | some _ =>
      updateFirst (fun e => e.cache_key == key)
        (fun e => { e with response_data := data,
                           expires_at := env.now + cache_hours,
                           last_accessed_at := env.now }) db
    | none =>
      db ++ [{ cache_key := key, source := source, query_params := params,
               response_data := data, created_at := env.now,
               expires_at := env.now + cache_hours, hit_count := 0,
               last_accessed_at := env.now }]

/-- What one `get_or_fetch` call produces: the returned payload, the
resulting cache table, and whether `fetch_function` was invoked. -/
structure GoFResult where
  payload : Payload
  db : Store
  fetchInvoked : Bool
  deriving DecidableEq, Repr

/-- `MarketResearchCacheService.get_or_fetch`: compute the key; on a
truthy cached value, bump the hit counter and return it without invoking
`fetch_function`; otherwise invoke `fetch_function`, store a successful
result, and return it — or return the empty dict if the fetch raised
(storing nothing). -/
def get_or_fetch (env : CacheEnv) (db : Store) (source : String)
    (cache_hours : Nat) (query_params : Params) : GoFResult :=
  let cache_key := generate_cache_key source query_params
  let cached := get_from_cache env.now db cache_key
  if pyTruthy cached then
    { payload := cached.getD []
      db := increment_hit_count env.now db cache_key
      fetchInvoked := false }
  else
    match env.fetchResult with
    | .ok fresh_data =>
      { payload := fresh_data
        db := store_in_cache env db cache_key source query_params fresh_data
                cache_hours
        fetchInvoked := true }
    | .raise _ => { payload := [], db := db, fetchInvoked := true }

/-- A valid singleton cache table for the C6 witness. -/
def entryC6 : CacheEntry :=
  { cache_key := generate_cache_key "github" [("repo", "lean4")]
    source := "github"
    query_params := [("repo", "lean4")]
    response_data := [("stars", "many")]
    created_at := 0
    expires_at := 48
    hit_count := 3
    last_accessed_at := 2 }

/-- Environment for the C6 witness: a second call five hours later, well
inside the 48-hour TTL. -/
def envC6w : CacheEnv :=
  { now := 5, fetchResult := .ok [("stars", "fresh")], storeCommitFails := false }

/-- Environment for the C6/C7 counterexamples: the fetch function
succeeds but returns the empty dict `{}`. -/
def envEmptyFetch : CacheEnv :=
  { now := 0, fetchResult := .ok [], storeCommitFails := false }

/-- A valid singleton cache table for the C7 witness, keyed by the first
call's parameter order. -/
def entryC7 : CacheEntry :=
  { cache_key := generate_cache_key "search" [("n", "10"), ("q", "x")]
    source := "search"
    query_params := [("n", "10"), ("q", "x")]
    response_data := [("results", "r1")]
    created_at := 0
    expires_at := 24
    hit_count := 0
    last_accessed_at := 0 }

/-- Environment for the C7 witness. -/
def envC7w : CacheEnv :=
  { now := 1, fetchResult := .ok [("results", "r2")], storeCommitFails := false }

/-- Environment for the C8 witness: the fetch raises. -/
def envC8 : CacheEnv :=
  { now := 0, fetchResult := .raise "ConnectionError", storeCommitFails := false }

/-- A later environment for the C8 witness: the retry succeeds. -/
def envC8retry : CacheEnv :=
  { now := 3, fetchResult := .ok [("ok", "1")], storeCommitFails := false }

/-- Environment for the C10 witness: successful fetch, failing commit. -/
def envC10 : CacheEnv :=
  { now := 0, fetchResult := .ok [("payload", "fresh")], storeCommitFails := true }

end MRCache

namespace StockDB

/-- One row of the `stock_analysis_cache` table
(`app/models/stock_analysis.py`, as used by
`app/services/database/stock_analysis_service.py`).  Times are hours on
an abstract clock; `expires_at` is nullable in the schema. -/
structure StockCacheEntry where
  stock_symbol : String
  data_type : String
  query_hash : String
  cached_data : String
  is_valid : Bool
  expires_at : Option Nat
  created_at : Nat
  cache_hits : Nat
  last_accessed_at : Nat
  deriving DecidableEq, Repr

/-- Python's `str.upper()` on the ASCII range (which covers ticker
symbols and data-type tags), acting directly on the character list so
that it evaluates inside the kernel. -/
def charUpper (c : Char) : Char :=
  if 97 <= c.toNat && c.toNat <= 122 then Char.ofNat (c.toNat - 32) else c

/-- Python's `str.upper()`. -/
def pyUpper (s : String) : String :=
  String.mk (s.toList.map charUpper)

/-- `StockAnalysisDatabaseService._generate_cache_key`: the SHA-256
digest of `f"{query}:{data_type}"`, modelled by the digest's preimage
(only equality of digests of equal inputs is used). -/
def generate_cache_key (query data_type : String) : String :=
  query ++ ":" ++ data_type

/-- The row filter of `get_cached_data`: symbol (uppercased), data type,
query hash, the `is_valid` flag, an unexpired or null `expires_at`, and a
`created_at` newer than `utcnow() - max_age_hours`. -/
def stockEntryMatches (now : Nat) (stock_symbol query data_type : String)
    (max_age_hours : Nat) (e : StockCacheEntry) : Bool :=
  e.stock_symbol == pyUpper stock_symbol
  && e.data_type == data_type
  && e.query_hash == generate_cache_key query data_type
  && e.is_valid
  && (match e.expires_at with
      | none => true
      | some t => decide (now < t))
  && decide (now - max_age_hours < e.created_at)

/-- `StockAnalysisDatabaseService.get_cached_data`: return the matching
row's payload (bumping `cache_hits` and `last_accessed_at`), or `None` —
the cache-miss signal on which the caller performs the live fetch. -/
def get_cached_data (now : Nat) (db : List StockCacheEntry)
    (stock_symbol query data_type : String) (max_age_hours : Nat) :
    Option String × List StockCacheEntry :=
  match db.find?
      (stockEntryMatches now stock_symbol query data_type max_age_hours) with
  | some e =>
    (some e.cached_data,
     updateFirst
       (stockEntryMatches now stock_symbol query data_type max_age_hours)
       (fun x => { x with cache_hits := x.cache_hits + 1,
                          last_accessed_at := now }) db)
  | none => (none, db)

/-- The row filter of `invalidate_cache`: both selectors are optional. -/
def invalidateMatches (symFilter dtFilter : Option String)
    (e : StockCacheEntry) : Bool :=
  (match symFilter with
   | none => true
   | some s => e.stock_symbol == pyUpper s)
  && (match dtFilter with
      | none => true
      | some d => e.data_type == d)

/-- `StockAnalysisDatabaseService.invalidate_cache`: soft-delete every
matching row (`is_valid := false`) and return the number of rows
touched. -/
def invalidate_cache (db : List StockCacheEntry)
    (symFilter dtFilter : Option String) : List StockCacheEntry × Nat :=
  (db.map (fun e =>
     if invalidateMatches symFilter dtFilter e then { e with is_valid := false }
     else e),
   (db.filter (invalidateMatches symFilter dtFilter)).length)

/-- A valid, unexpired, recently created cache row for the C9 witness. -/
def entryC9 : StockCacheEntry :=
  { stock_symbol := "AAPL"
    data_type := "search_data"
    query_hash := generate_cache_key "AAPL latest financials" "search_data"
    cached_data := "cached search results"
    is_valid := true
    expires_at := some 100
    created_at := 5
    cache_hits := 0
    last_accessed_at := 5 }

end StockDB

/-- If the first element satisfying `p` also satisfies `r`, it is the
first element satisfying the conjunction. -/
theorem find?_and_of_find? {α : Type} (p r : α → Bool) (l : List α) (e : α)
    (h : l.find? p = some e) (hr : r e = true) :
    l.find? (fun x => p x && r x) = some e := by
  induction l with
  | nil => simp at h
  | cons x xs ih =>
    by_cases hx : p x = true
    · rw [List.find?_cons_of_pos _ hx] at h
      cases h
      rw [List.find?_cons_of_pos]
      simp [hx, hr]
    · rw [List.find?_cons_of_neg _ (by simp [hx])] at h
      rw [List.find?_cons_of_neg _ (by simp [hx])]
      exact ih h

/-- If no element satisfies `p`, none satisfies the conjunction either. -/
theorem find?_and_of_none {α : Type} (p r : α → Bool) (l : List α)
    (h : l.find? p = none) :
    l.find? (fun x => p x && r x) = none := by
  induction l with
  | nil => rfl
  | cons x xs ih =>
    by_cases hx : p x = true
    · rw [List.find?_cons_of_pos _ hx] at h
      exact absurd h (by simp)
    · rw [List.find?_cons_of_neg _ (by simp [hx])] at h
      rw [List.find?_cons_of_neg _ (by simp [hx])]
      exact ih h

/-- Updating the first element satisfying `p` by a `p`-preserving map
makes that updated element the first match afterwards. -/
theorem find?_updateFirst {α : Type} (p : α → Bool) (f : α → α) (l : List α)
    (e : α) (h : l.find? p = some e) (hf : p (f e) = true) :
    (updateFirst p f l).find? p = some (f e) := by
  induction l with
  | nil => simp at h
  | cons x xs ih =>
    by_cases hx : p x = true
    · rw [List.find?_cons_of_pos _ hx] at h
      cases h
      simp only [updateFirst, hx, if_true]
      rw [List.find?_cons_of_pos _ hf]
    · rw [List.find?_cons_of_neg _ (by simp [hx])] at h
      simp only [updateFirst, hx, Bool.false_eq_true, if_false]
      rw [List.find?_cons_of_neg _ (by simp [hx])]
      exact ih h

namespace StockAnalysis

/-- Each superstep of the budgeted run increases the drafting counter by at
most one, so the counter of the result is bounded by the initial counter
plus the budget. -/
theorem runFrom_drafts_le (o : Oracle) :
    ∀ (fuel : Nat) (node : NodeName) (s : StockAnalysisState) (d : Nat),
      (runFrom o node s d fuel).drafts ≤ d + fuel := by
  intro fuel
  induction fuel with
  | zero => intro node s d; simp [runFrom]
  | succ n ih =>
    intro node s d
    cases node with
    | research_plan =>
      have h := ih NodeName.fetch_data (research_plan_node o s) d
      simp only [runFrom]
      omega
    | fetch_data =>
      have h := ih NodeName.draft_sections (fetch_data_node o s) d
      simp only [runFrom]
      omega
    | draft_sections =>
      by_cases hc :
          route_drafting (draft_sections_node o d s) = "assemble_report"
      · have h := ih NodeName.assemble_report (draft_sections_node o d s) (d + 1)
        simp only [runFrom, hc, if_true]
        omega
      · have h := ih NodeName.draft_sections (draft_sections_node o d s) (d + 1)
        simp only [runFrom, hc, if_false]
        omega
    | assemble_report => simp [runFrom]

/-- The trace of a budgeted run is no longer than the budget: the run
executes at most `fuel` supersteps. -/
theorem runFrom_trace_le (o : Oracle) :
    ∀ (fuel : Nat) (node : NodeName) (s : StockAnalysisState) (d : Nat),
      (runFrom o node s d fuel).trace.length ≤ fuel := by
  intro fuel
  induction fuel with
  | zero => intro node s d; simp [runFrom]
  | succ n ih =>
    intro node s d
    cases node with
    | research_plan =>
      have h := ih NodeName.fetch_data (research_plan_node o s) d
      simp only [runFrom, List.length_cons]
      omega
    | fetch_data =>
      have h := ih NodeName.draft_sections (fetch_data_node o s) d
      simp only [runFrom, List.length_cons]
      omega
    | draft_sections =>
      by_cases hc :
          route_drafting (draft_sections_node o d s) = "assemble_report"
      · have h := ih NodeName.assemble_report (draft_sections_node o d s) (d + 1)
        simp only [runFrom, hc, if_true, List.length_cons]
        omega
      · have h := ih NodeName.draft_sections (draft_sections_node o d s) (d + 1)
        simp only [runFrom, hc, if_false, List.length_cons]
        omega
    | assemble_report => simp [runFrom]

/-- A run entered at `research_plan` spends its first two supersteps on
the plan and fetch stages, so with budget `n + 2` at most `n` drafting
iterations happen. -/
theorem runFrom_entry_drafts (o : Oracle) (s : StockAnalysisState) (n : Nat) :
    (runFrom o NodeName.research_plan s 0 (n + 1 + 1)).drafts ≤ n := by
  have h := runFrom_drafts_le o n NodeName.draft_sections
    (fetch_data_node o (research_plan_node o s)) 0
  simp only [runFrom]
  omega

/-- A run entered at `research_plan` with a budget of at least two
supersteps executes `research_plan` and then `fetch_data`, whatever the
oracle does. -/
theorem runFrom_trace_two (o : Oracle) (s : StockAnalysisState) (d n : Nat) :
    ∃ rest, (runFrom o NodeName.research_plan s d (n + 1 + 1)).trace
      = NodeName.research_plan :: NodeName.fetch_data :: rest := by
  simp only [runFrom]
  exact ⟨_, rfl⟩

/-- A run given at least one superstep executes at least one node,
whatever the oracle does. -/
theorem runFrom_trace_ne_nil (o : Oracle) (node : NodeName)
    (s : StockAnalysisState) (d f : Nat) :
    (runFrom o node s d (f + 1)).trace ≠ [] := by
  cases node with
  | research_plan => simp [runFrom]
  | fetch_data => simp [runFrom]
  | draft_sections =>
    by_cases hc :
        route_drafting (draft_sections_node o d s) = "assemble_report" <;>
      simp [runFrom, hc]
  | assemble_report => simp [runFrom]

/-- A run entered at `research_plan` with at least four supersteps of
budget executes the plan, fetch and first drafting stages and then at
least one further node — independently of which external calls raise. -/
theorem runFrom_entry_trace_prefix (o : Oracle) (s : StockAnalysisState)
    (n : Nat) :
    ∃ rest, (runFrom o NodeName.research_plan s 0 (n + 1 + 1 + 1 + 1)).trace
      = NodeName.research_plan :: NodeName.fetch_data ::
          NodeName.draft_sections :: rest
      ∧ rest ≠ [] := by
  by_cases hc : route_drafting (draft_sections_node o 0
      (fetch_data_node o (research_plan_node o s))) = "assemble_report"
  · refine ⟨(runFrom o NodeName.assemble_report
        (draft_sections_node o 0 (fetch_data_node o (research_plan_node o s)))
        1 (n + 1)).trace, ?_, runFrom_trace_ne_nil o _ _ 1 n⟩
    simp only [runFrom, hc, if_true]
  · refine ⟨(runFrom o NodeName.draft_sections
        (draft_sections_node o 0 (fetch_data_node o (research_plan_node o s)))
        1 (n + 1)).trace, ?_, runFrom_trace_ne_nil o _ _ 1 n⟩
    simp only [runFrom, hc, if_false]

/-- Claim C1 (counterexample): with a drafting backend that never emits
the termination signal, the run of the stock-analysis graph under the
configured `recursion_limit = MAX_SECTIONS + 4` stops with a
`GraphRecursionError` only after 12 drafting iterations — more than the
claimed cap of `MAX_SECTIONS = 10` drafting iterations. -/
theorem c1_counterexample :
    (runFrom advOracleC1 NodeName.research_plan
        (initialState "Should I buy AAPL?" "AAPL" "Apple") 0
        (MAX_SECTIONS + 4)).exhausted = true
    ∧ MAX_SECTIONS <
      (runFrom advOracleC1 NodeName.research_plan
        (initialState "Should I buy AAPL?" "AAPL" "Apple") 0
        (MAX_SECTIONS + 4)).drafts := by
  constructor
  · rfl
  · decide

/-- Claim C1 (amended): for every oracle behaviour — in particular a
drafting backend that never produces `PLAN_COMPLETE` — the run of the
stock-analysis graph under `recursion_limit = MAX_SECTIONS + 4` performs
at most `MAX_SECTIONS + 2` drafting iterations and at most
`MAX_SECTIONS + 4` node executions in total before it stops (normally or
with `GraphRecursionError`); it never loops forever. -/
theorem c1_drafting_iterations_bounded (o : Oracle) (q sym nm : String) :
    (runFrom o NodeName.research_plan (initialState q sym nm) 0
        (MAX_SECTIONS + 4)).drafts ≤ MAX_SECTIONS + 2
    ∧ (runFrom o NodeName.research_plan (initialState q sym nm) 0
        (MAX_SECTIONS + 4)).trace.length ≤ MAX_SECTIONS + 4 := by
  constructor
  · have h := runFrom_entry_drafts o (initialState q sym nm) (MAX_SECTIONS + 2)
    have e : MAX_SECTIONS + 2 + 1 + 1 = MAX_SECTIONS + 4 := by omega
    rw [e] at h
    exact h
  · exact runFrom_trace_le o (MAX_SECTIONS + 4) NodeName.research_plan
      (initialState q sym nm) 0

/-- Claim C3: once the most recent drafted fragment is the termination
marker `PLAN_COMPLETE`, the router exits to assembly, and the assembler
receives exactly the earlier fragments in their original order with the
marker stripped. -/
theorem c3_marker_exits_and_stripped (s : StockAnalysisState)
    (ss : List String)
    (hs : s.drafted_sections = ss ++ ["PLAN_COMPLETE"])
    (hns : "PLAN_COMPLETE" ∉ ss) :
    route_drafting s = "assemble_report"
    ∧ clean_drafted_sections s.drafted_sections = ss := by
  constructor
  · have hl : s.drafted_sections.getLast? = some "PLAN_COMPLETE" := by
      rw [hs, List.getLast?_concat]
    simp only [route_drafting, hl]
    decide
  · rw [hs]
    unfold clean_drafted_sections
    rw [List.filter_append]
    have h1 : (ss.filter (fun s => !(s == "PLAN_COMPLETE"))) = ss := by
      apply List.filter_eq_self.mpr
      intro a ha
      have hne : a ≠ "PLAN_COMPLETE" := by
        intro h
        exact hns (h ▸ ha)
      simp [hne]
    rw [h1]
    simp

/-- Claim C3 (witness): Scenario B on concrete input. -/
theorem c3_witness :
    route_drafting c3state = "assemble_report"
    ∧ clean_drafted_sections c3state.drafted_sections = ["S1", "S2"] :=
  c3_marker_exits_and_stripped c3state ["S1", "S2"] rfl (by decide)

/-- Claim C4 (counterexample): when the iteration cap is reached without
the termination signal, `run_analysis` is NOT forced to assembly: the
`GraphRecursionError` is caught and the returned result carries only the
question and an error message — the drafted fragments are discarded and
no assembled output appears. -/
theorem c4_counterexample :
    run_analysis advOracleC4 "Analyze TSLA" "TSLA" "Tesla" =
      { question := some "Analyze TSLA", stock_symbol := none,
        stock_name := none, analysis_plan := none, research_data := none,
        final_report := none, model := none,
        error := some "Analysis workflow failed: GraphRecursionError" } := by
  rfl

/-- Claim C4 (amended): when the drafting loop exhausts the recursion
limit without the termination signal, the graph run raises
`GraphRecursionError`; `run_analysis` catches it and returns a hard
failure carrying only the question and an error message — no assembly of
the drafted fragments takes place and they are absent from the result. -/
theorem c4_exhaustion_is_hard_failure (o : Oracle) (q sym nm : String)
    (h : (runFrom o NodeName.research_plan (initialState q sym nm) 0
        (MAX_SECTIONS + 4)).exhausted = true) :
    run_analysis o q sym nm =
      { question := some q, stock_symbol := none, stock_name := none,
        analysis_plan := none, research_data := none, final_report := none,
        model := none,
        error := some "Analysis workflow failed: GraphRecursionError" } := by
  simp only [run_analysis, h, if_true]

/-- Claim C4 (witness): the amended behaviour on a concrete
never-terminating backend. -/
theorem c4_witness :
    run_analysis advOracleC4 "Analyze AMZN" "AMZN" "Amazon" =
      { question := some "Analyze AMZN", stock_symbol := none,
        stock_name := none, analysis_plan := none, research_data := none,
        final_report := none, model := none,
        error := some "Analysis workflow failed: GraphRecursionError" } :=
  c4_exhaustion_is_hard_failure advOracleC4 "Analyze AMZN" "AMZN" "Amazon" rfl

/-- Claim C5 (counterexample): the planning node fails and records the
error in the state, yet the engine does NOT stop: `fetch_data` still
executes, the drafting loop runs, and even `assemble_report` executes and
produces a report — refuting that no further computation nodes execute
after the failing one. -/
theorem c5_counterexample :
    (runFrom advOracleC5 NodeName.research_plan
        (initialState "Analyze NVDA" "NVDA" "") 0
        (MAX_SECTIONS + 4)).final.error
      = "Failed to generate research plan: LLM service error: upstream 500"
    ∧ NodeName.fetch_data ∈ (runFrom advOracleC5 NodeName.research_plan
        (initialState "Analyze NVDA" "NVDA" "") 0 (MAX_SECTIONS + 4)).trace
    ∧ NodeName.assemble_report ∈ (runFrom advOracleC5 NodeName.research_plan
        (initialState "Analyze NVDA" "NVDA" "") 0 (MAX_SECTIONS + 4)).trace
    ∧ (runFrom advOracleC5 NodeName.research_plan
        (initialState "Analyze NVDA" "NVDA" "") 0
        (MAX_SECTIONS + 4)).final.final_report = "Degraded report" := by
  refine ⟨rfl, ?_, ?_, rfl⟩ <;> decide

/-- Claim C5 (amended): whichever workflow node's external call raises —
planning, fetching, drafting or assembly — that node catches the
exception and returns the state with only the `error` field changed
(every other accumulated field is preserved by the failing node's
update), and the engine does not transition to a terminal state: the
unconditional edges never inspect the error field, so for every oracle
the run still executes `research_plan`, then `fetch_data`, then a
drafting step, and then at least one further node.  The `error` field
holds the most recent failure (a later failing node overwrites it). -/
theorem c5_error_recorded_run_continues (o : Oracle) (q sym nm : String) :
    (∀ (s : StockAnalysisState) m, o.planLLM = .err m →
      research_plan_node o s
        = { s with error := "Failed to generate research plan: " ++ m })
    ∧ (∀ (s : StockAnalysisState) m, o.searchTool = .err m →
      fetch_data_node o s
        = { s with error := "Failed to fetch data: " ++ m })
    ∧ (∀ (s : StockAnalysisState) i m, o.draftLLM i = .err m →
      draft_sections_node o i s
        = { s with error := "Failed to draft section: " ++ m })
    ∧ (∀ (s : StockAnalysisState) m,
        o.assembleLLM (clean_drafted_sections s.drafted_sections) = .err m →
      assemble_report_node o s
        = { s with error := "Failed to compile final report: " ++ m })
    ∧ (∃ rest, (runFrom o NodeName.research_plan (initialState q sym nm) 0
          (MAX_SECTIONS + 4)).trace
        = NodeName.research_plan :: NodeName.fetch_data ::
            NodeName.draft_sections :: rest
        ∧ rest ≠ []) := by
  refine ⟨?_, ?_, ?_, ?_, ?_⟩
  · intro s m h
    simp [research_plan_node, h]
  · intro s m h
    simp [fetch_data_node, h]
  · intro s i m h
    simp [draft_sections_node, h]
  · intro s m h
    simp [assemble_report_node, h]
  · have e : MAX_SECTIONS + 4 = MAX_SECTIONS + 1 + 1 + 1 + 1 := by omega
    rw [e]
    exact runFrom_entry_trace_prefix o (initialState q sym nm) MAX_SECTIONS

/-- Claim C5 (witness): the amended behaviour on a concrete backend
where every node's external call raises. -/
theorem c5_witness :
    research_plan_node failAllOracle (initialState "Analyze NVDA" "NVDA" "")
        = { initialState "Analyze NVDA" "NVDA" "" with
            error := "Failed to generate research plan: plan down" }
    ∧ fetch_data_node failAllOracle (initialState "Analyze NVDA" "NVDA" "")
        = { initialState "Analyze NVDA" "NVDA" "" with
            error := "Failed to fetch data: search down" }
    ∧ draft_sections_node failAllOracle 0
        (initialState "Analyze NVDA" "NVDA" "")
        = { initialState "Analyze NVDA" "NVDA" "" with
            error := "Failed to draft section: draft down" }
    ∧ assemble_report_node failAllOracle (initialState "Analyze NVDA" "NVDA" "")
        = { initialState "Analyze NVDA" "NVDA" "" with
            error := "Failed to compile final report: assemble down" }
    ∧ (∃ rest, (runFrom failAllOracle NodeName.research_plan
          (initialState "Analyze NVDA" "NVDA" "") 0 (MAX_SECTIONS + 4)).trace
        = NodeName.research_plan :: NodeName.fetch_data ::
            NodeName.draft_sections :: rest
        ∧ rest ≠ []) := by
  have h := c5_error_recorded_run_continues failAllOracle "Analyze NVDA"
    "NVDA" ""
  exact ⟨h.1 _ _ rfl, h.2.1 _ _ rfl, h.2.2.1 _ 0 _ rfl, h.2.2.2.1 _ _ rfl,
    h.2.2.2.2⟩

end StockAnalysis

namespace MarketResearch

/-- Claim C2 (counterexample): when a single per-source call raises, the
exception propagates out of `research_market_trends`; no bundle is
returned at all, so the failed source gets no empty placeholder and the
siblings' results are lost with it. -/
theorem c2_counterexample :
    research_market_trends oracleOneFailure "frontend" "intermediate"
        "2025-12-01T00:00:00"
      = Except.error "Invalid JSON response from LLM: Expecting value" := by
  rfl

/-- Claim C2 (amended): `research_market_trends` performs its six
per-source calls sequentially with no per-call error handling: whichever
per-source call is the first to raise — the demand, skill-gap, career,
resource, industry or synthesis call — its exception propagates
unchanged to the caller of the aggregate and no bundle is produced;
only when every per-source call succeeds does the returned bundle
contain every expected source key, each bound to its source's result. -/
theorem c2_no_failure_isolation (o : ResearchOracle)
    (topic lvl ts : String) :
    (∀ m, o.demand = .raise m →
      research_market_trends o topic lvl ts = Except.error m)
    ∧ (∀ d m, o.demand = .ok d → o.skills = .raise m →
      research_market_trends o topic lvl ts = Except.error m)
    ∧ (∀ d s m, o.demand = .ok d → o.skills = .ok s →
        o.careers = .raise m →
      research_market_trends o topic lvl ts = Except.error m)
    ∧ (∀ d s c m, o.demand = .ok d → o.skills = .ok s → o.careers = .ok c →
        o.resources = .raise m →
      research_market_trends o topic lvl ts = Except.error m)
    ∧ (∀ d s c r m, o.demand = .ok d → o.skills = .ok s → o.careers = .ok c →
        o.resources = .ok r → o.industry = .raise m →
      research_market_trends o topic lvl ts = Except.error m)
    ∧ (∀ d s c r i m, o.demand = .ok d → o.skills = .ok s →
        o.careers = .ok c → o.resources = .ok r → o.industry = .ok i →
        o.synth = .raise m →
      research_market_trends o topic lvl ts = Except.error m)
    ∧ (∀ d s c r i syn, o.demand = .ok d → o.skills = .ok s →
        o.careers = .ok c → o.resources = .ok r → o.industry = .ok i →
        o.synth = .ok syn →
        research_market_trends o topic lvl ts =
          Except.ok { market_demand := d, skill_gaps := s, career_paths := c,
                      learning_resources := r, industry_developments := i,
                      market_insights := syn, research_timestamp := ts,
                      research_version := "fresh_2025_q4" }) := by
  refine ⟨?_, ?_, ?_, ?_, ?_, ?_, ?_⟩ <;>
    · intros
      simp [research_market_trends, *]

/-- Claim C2 (witness): the amended behaviour on concrete oracles — one
oracle per failing position, plus the all-success case. -/
theorem c2_witness :
    research_market_trends (oracleFailAt 0) "backend" "senior" "ts"
        = Except.error "boom0"
    ∧ research_market_trends (oracleFailAt 1) "backend" "senior" "ts"
        = Except.error "boom1"
    ∧ research_market_trends (oracleFailAt 2) "backend" "senior" "ts"
        = Except.error "boom2"
    ∧ research_market_trends (oracleFailAt 3) "backend" "senior" "ts"
        = Except.error "boom3"
    ∧ research_market_trends (oracleFailAt 4) "backend" "senior" "ts"
        = Except.error "boom4"
    ∧ research_market_trends (oracleFailAt 5) "backend" "senior" "ts"
        = Except.error "boom5"
    ∧ research_market_trends oracleAllOk "backend" "senior" "ts"
        = Except.ok { market_demand := [("demand_level", "High")],
                      skill_gaps := [("high_demand_skills", "Rust")],
                      career_paths := [("career_timeline", "Junior")],
                      learning_resources := [("online_courses", "CS101")],
                      industry_developments := [("industry_shifts", "AI")],
                      market_insights := [("critical_skills_now", "LLMs")],
                      research_timestamp := "ts",
                      research_version := "fresh_2025_q4" } :=
  ⟨(c2_no_failure_isolation (oracleFailAt 0) "backend" "senior" "ts").1
      "boom0" rfl,
   (c2_no_failure_isolation (oracleFailAt 1) "backend" "senior" "ts").2.1
      [("demand_level", "High")] "boom1" rfl rfl,
   (c2_no_failure_isolation (oracleFailAt 2) "backend" "senior" "ts").2.2.1
      [("demand_level", "High")] [("skills", "s")] "boom2" rfl rfl rfl,
   (c2_no_failure_isolation (oracleFailAt 3) "backend" "senior" "ts").2.2.2.1
      [("demand_level", "High")] [("skills", "s")] [("careers", "c")]
      "boom3" rfl rfl rfl rfl,
   (c2_no_failure_isolation (oracleFailAt 4) "backend" "senior" "ts").2.2.2.2.1
      [("demand_level", "High")] [("skills", "s")] [("careers", "c")]
      [("resources", "r")] "boom4" rfl rfl rfl rfl rfl,
   (c2_no_failure_isolation (oracleFailAt 5) "backend" "senior"
        "ts").2.2.2.2.2.1
      [("demand_level", "High")] [("skills", "s")] [("careers", "c")]
      [("resources", "r")] [("industry", "i")] "boom5" rfl rfl rfl rfl rfl rfl,
   (c2_no_failure_isolation oracleAllOk "backend" "senior" "ts").2.2.2.2.2.2
      [("demand_level", "High")] [("high_demand_skills", "Rust")]
      [("career_timeline", "Junior")] [("online_courses", "CS101")]
      [("industry_shifts", "AI")] [("critical_skills_now", "LLMs")]
      rfl rfl rfl rfl rfl rfl⟩

end MarketResearch

namespace MRCache

/-- `charListLe` is total. -/
theorem charListLe_total :
    ∀ x y : List Char, charListLe x y = true ∨ charListLe y x = true := by
  intro x
  induction x with
  | nil => intro y; left; rfl
  | cons a as ih =>
    intro y
    cases y with
    | nil => right; rfl
    | cons b bs =>
      rcases Nat.lt_trichotomy a.toNat b.toNat with hab | hab | hab
      · left
        simp [charListLe, hab]
      · have h1 : ¬ a.toNat < b.toNat := by omega
        have h2 : ¬ b.toNat < a.toNat := by omega
        rcases ih bs with h | h
        · left
          simp [charListLe, h1, h2, h]
        · right
          simp [charListLe, h1, h2, h]
      · right
        simp [charListLe, hab]

/-- `charListLe` is transitive. -/
theorem charListLe_trans :
    ∀ x y z : List Char, charListLe x y = true → charListLe y z = true →
      charListLe x z = true := by
  intro x
  induction x with
  | nil => intro y z h1 h2; rfl
  | cons a as ih =>
    intro y z h1 h2
    cases y with
    | nil => simp [charListLe] at h1
    | cons b bs =>
      cases z with
      | nil => simp [charListLe] at h2
      | cons c cs =>
        rcases Nat.lt_trichotomy a.toNat b.toNat with hab | hab | hab
        · rcases Nat.lt_trichotomy b.toNat c.toNat with hbc | hbc | hbc
          · have hac : a.toNat < c.toNat := by omega
            simp [charListLe, hac]
          · have hac : a.toNat < c.toNat := by omega
            simp [charListLe, hac]
          · have hn1 : ¬ b.toNat < c.toNat := by omega
            simp [charListLe, hn1, hbc] at h2
        · have hn1 : ¬ a.toNat < b.toNat := by omega
          have hn2 : ¬ b.toNat < a.toNat := by omega
          rw [show charListLe (a :: as) (b :: bs)
              = charListLe as bs from by simp [charListLe, hn1, hn2]] at h1
          rcases Nat.lt_trichotomy b.toNat c.toNat with hbc | hbc | hbc
          · have hac : a.toNat < c.toNat := by omega
            simp [charListLe, hac]
          · have hn3 : ¬ b.toNat < c.toNat := by omega
            have hn4 : ¬ c.toNat < b.toNat := by omega
            rw [show charListLe (b :: bs) (c :: cs)
                = charListLe bs cs from by simp [charListLe, hn3, hn4]] at h2
            have hn5 : ¬ a.toNat < c.toNat := by omega
            have hn6 : ¬ c.toNat < a.toNat := by omega
            rw [show charListLe (a :: as) (c :: cs)
                = charListLe as cs from by simp [charListLe, hn5, hn6]]
            exact ih bs cs h1 h2
          · have hn3 : ¬ b.toNat < c.toNat := by omega
            simp [charListLe, hn3, hbc] at h2
        · have hn1 : ¬ a.toNat < b.toNat := by omega
          simp [charListLe, hn1, hab] at h1

/-- Characters with equal code points are equal. -/
theorem char_toNat_inj {a b : Char} (h : a.toNat = b.toNat) : a = b :=
  Char.ext (UInt32.ext h)

/-- `charListLe` is antisymmetric. -/
theorem charListLe_antisymm :
    ∀ x y : List Char, charListLe x y = true → charListLe y x = true →
      x = y := by
  intro x
  induction x with
  | nil =>
    intro y h1 h2
    cases y with
    | nil => rfl
    | cons b bs => simp [charListLe] at h2
  | cons a as ih =>
    intro y h1 h2
    cases y with
    | nil => simp [charListLe] at h1
    | cons b bs =>
      rcases Nat.lt_trichotomy a.toNat b.toNat with hab | hab | hab
      · have hn : ¬ b.toNat < a.toNat := by omega
        simp [charListLe, hn, hab] at h2
      · have hn1 : ¬ a.toNat < b.toNat := by omega
        have hn2 : ¬ b.toNat < a.toNat := by omega
        rw [show charListLe (a :: as) (b :: bs)
            = charListLe as bs from by simp [charListLe, hn1, hn2]] at h1
        rw [show charListLe (b :: bs) (a :: as)
            = charListLe bs as from by simp [charListLe, hn1, hn2]] at h2
        rw [char_toNat_inj hab, ih bs h1 h2]
      · have hn : ¬ a.toNat < b.toNat := by omega
        simp [charListLe, hn, hab] at h1

/-- Strings with the same character list are equal. -/
theorem string_toList_inj {s t : String} (h : s.toList = t.toList) : s = t := by
  cases s
  cases t
  exact congrArg String.mk h

instance : IsTotal (String × String) keyLe :=
  ⟨fun a b => charListLe_total a.1.toList b.1.toList⟩

instance : IsTrans (String × String) keyLe :=
  ⟨fun _ b _ h1 h2 => charListLe_trans _ b.1.toList _ h1 h2⟩

instance : IsAntisymm (String × String) (fun a b => keyLe a b ∧ a.1 ≠ b.1) :=
  ⟨fun _ _ h1 h2 =>
    absurd (string_toList_inj (charListLe_antisymm _ _ h1.1 h2.1)) h1.2⟩

/-- A list of parameters that is sorted by key and has pairwise distinct
keys is sorted by the strict key order. -/
theorem sorted_lt_of_sorted_le_nodup (l : Params)
    (hs : l.Sorted keyLe) (hn : (l.map Prod.fst).Nodup) :
    l.Sorted (fun a b : String × String => keyLe a b ∧ a.1 ≠ b.1) := by
  have hs' : l.Pairwise keyLe := hs
  have hne : l.Pairwise (fun a b : String × String => a.1 ≠ b.1) := by
    rw [List.Nodup, List.pairwise_map] at hn
    exact hn
  exact hs'.and hne

/-- Key-sorting is invariant under permutation of a list with pairwise
distinct keys: two orderings of the same dict sort to the same list. -/
theorem sortByKey_eq_of_perm (l1 l2 : Params) (hp : l1.Perm l2)
    (hn : (l1.map Prod.fst).Nodup) :
    sortByKey l1 = sortByKey l2 := by
  have p1 := List.perm_insertionSort keyLe l1
  have p2 := List.perm_insertionSort keyLe l2
  have s1 := List.sorted_insertionSort keyLe l1
  have s2 := List.sorted_insertionSort keyLe l2
  have hperm : (sortByKey l1).Perm (sortByKey l2) := p1.trans (hp.trans p2.symm)
  have hn1 : ((sortByKey l1).map Prod.fst).Nodup :=
    (List.Perm.nodup_iff (p1.map Prod.fst)).mpr hn
  have hn2 : ((sortByKey l2).map Prod.fst).Nodup :=
    (List.Perm.nodup_iff (p2.map Prod.fst)).mpr
      ((List.Perm.nodup_iff (hp.map Prod.fst)).mp hn)
  exact List.eq_of_perm_of_sorted
    (r := fun a b : String × String => keyLe a b ∧ a.1 ≠ b.1)
    hperm (sorted_lt_of_sorted_le_nodup _ s1 hn1)
    (sorted_lt_of_sorted_le_nodup _ s2 hn2)

/-- A key-only lookup failure makes `_get_from_cache` miss at any time. -/
theorem get_from_cache_none_of_absent (now : Nat) (db : Store) (key : String)
    (h : db.find? (fun e => e.cache_key == key) = none) :
    get_from_cache now db key = none := by
  unfold get_from_cache
  have h2 : db.find?
      (fun e => e.cache_key == key && decide (now < e.expires_at)) = none :=
    find?_and_of_none (fun e => e.cache_key == key)
      (fun e => decide (now < e.expires_at)) db h
  rw [h2]

/-- If the first row with the key is unexpired, `_get_from_cache` returns
its payload. -/
theorem get_from_cache_some_of_found (now : Nat) (db : Store) (key : String)
    (e : CacheEntry) (h : db.find? (fun x => x.cache_key == key) = some e)
    (hexp : now < e.expires_at) :
    get_from_cache now db key = some e.response_data := by
  unfold get_from_cache
  have h2 : db.find?
      (fun x => x.cache_key == key && decide (now < x.expires_at)) = some e :=
    find?_and_of_find? (fun x => x.cache_key == key)
      (fun x => decide (now < x.expires_at)) db e h (by simp [hexp])
  rw [h2]

/-- Claim C6 (amended): a second `get_or_fetch` for the same
(source, params) inside the TTL window does not invoke `fetch_fn`,
returns the stored payload, increments `hit_count` by exactly one and
refreshes `last_accessed_at` — provided the stored payload is non-empty.
(A stored empty payload is falsy in Python and is treated as a miss, see
the counterexample.) -/
theorem c6_hit_skips_fetch_and_increments (env : CacheEnv) (db : Store)
    (source : String) (hours : Nat) (params : Params) (e : CacheEntry)
    (hfind : db.find?
      (fun x => x.cache_key == generate_cache_key source params) = some e)
    (hexp : env.now < e.expires_at) (hne : e.response_data ≠ []) :
    (get_or_fetch env db source hours params).fetchInvoked = false
    ∧ (get_or_fetch env db source hours params).payload = e.response_data
    ∧ (get_or_fetch env db source hours params).db.find?
        (fun x => x.cache_key == generate_cache_key source params)
      = some { e with hit_count := e.hit_count + 1,
                      last_accessed_at := env.now } := by
  have hcached := get_from_cache_some_of_found env.now db
    (generate_cache_key source params) e hfind hexp
  have hemp : e.response_data.isEmpty = false := by
    cases h : e.response_data with
    | nil => exact absurd h hne
    | cons a as => rfl
  refine ⟨?_, ?_, ?_⟩
  · simp [get_or_fetch, hcached, pyTruthy, hemp]
  · simp [get_or_fetch, hcached, pyTruthy, hemp]
  · have hkey : (e.cache_key == generate_cache_key source params) = true :=
      List.find?_some
        (p := fun x : CacheEntry =>
          x.cache_key == generate_cache_key source params) hfind
    have hdb : (get_or_fetch env db source hours params).db
        = increment_hit_count env.now db (generate_cache_key source params) := by
      simp [get_or_fetch, hcached, pyTruthy, hemp]
    rw [hdb]
    exact find?_updateFirst _ _ db e hfind hkey

/-- Claim C6 (witness): concrete in-TTL hit. -/
theorem c6_witness :
    (get_or_fetch envC6w [entryC6] "github" 48 [("repo", "lean4")]).fetchInvoked
        = false
    ∧ (get_or_fetch envC6w [entryC6] "github" 48 [("repo", "lean4")]).payload
        = [("stars", "many")]
    ∧ (get_or_fetch envC6w [entryC6] "github" 48 [("repo", "lean4")]).db.find?
        (fun x => x.cache_key == generate_cache_key "github" [("repo", "lean4")])
        = some { entryC6 with hit_count := 4, last_accessed_at := 5 } :=
  c6_hit_skips_fetch_and_increments envC6w [entryC6] "github" 48
    [("repo", "lean4")] entryC6 rfl (by decide) (by decide)

/-- Claim C6 (counterexample): after `get_or_fetch` stores an (empty)
payload, a second identical call inside the TTL window finds the valid
unexpired entry, yet — because `{}` is falsy — it invokes the fetch
function again and leaves `hit_count` at 0 instead of incrementing it. -/
theorem c6_counterexample :
    ((get_or_fetch envEmptyFetch [] "serper" 24 [("q", "python")]).db.find?
        (fun e => e.cache_key == generate_cache_key "serper" [("q", "python")]
          && decide (envEmptyFetch.now < e.expires_at))).isSome = true
    ∧ (get_or_fetch envEmptyFetch
        (get_or_fetch envEmptyFetch [] "serper" 24 [("q", "python")]).db
        "serper" 24 [("q", "python")]).fetchInvoked = true
    ∧ ((get_or_fetch envEmptyFetch
        (get_or_fetch envEmptyFetch [] "serper" 24 [("q", "python")]).db
        "serper" 24 [("q", "python")]).db.find?
        (fun e => e.cache_key == generate_cache_key "serper" [("q", "python")])).map
        CacheEntry.hit_count = some 0 := by
  refine ⟨rfl, rfl, rfl⟩

/-- Claim C7 (amended): cache-key generation is order independent — any
two parameter lists that are equal as key-to-value mappings (permutations
with distinct keys) produce the identical key — and consequently a second
`get_or_fetch` with reordered parameters hits the first call's cached
entry without invoking its fetch function, provided the stored payload is
non-empty.  (If the first fetch stored the empty dict, the falsy payload
is treated as a miss, see the counterexample.) -/
theorem c7_cache_key_order_independent (env : CacheEnv) (db : Store)
    (source : String) (hours : Nat) (l1 l2 : Params)
    (hp : l1.Perm l2) (hn : (l1.map Prod.fst).Nodup) :
    generate_cache_key source l1 = generate_cache_key source l2
    ∧ ∀ e : CacheEntry,
        db.find? (fun x => x.cache_key == generate_cache_key source l1)
          = some e →
        env.now < e.expires_at → e.response_data ≠ [] →
        (get_or_fetch env db source hours l2).fetchInvoked = false
        ∧ (get_or_fetch env db source hours l2).payload = e.response_data := by
  have hkey : generate_cache_key source l1 = generate_cache_key source l2 := by
    unfold generate_cache_key
    rw [sortByKey_eq_of_perm l1 l2 hp hn]
  refine ⟨hkey, ?_⟩
  intro e hfind hexp hne
  rw [hkey] at hfind
  have h := c6_hit_skips_fetch_and_increments env db source hours l2 e
    hfind hexp hne
  exact ⟨h.1, h.2.1⟩

/-- Claim C7 (witness): Scenario C with a non-empty first payload. -/
theorem c7_witness :
    generate_cache_key "search" [("n", "10"), ("q", "x")]
        = generate_cache_key "search" [("q", "x"), ("n", "10")]
    ∧ (get_or_fetch envC7w [entryC7] "search" 24
        [("q", "x"), ("n", "10")]).fetchInvoked = false
    ∧ (get_or_fetch envC7w [entryC7] "search" 24
        [("q", "x"), ("n", "10")]).payload = [("results", "r1")] := by
  have h := c7_cache_key_order_independent envC7w [entryC7] "search" 24
    [("n", "10"), ("q", "x")] [("q", "x"), ("n", "10")] (by decide) (by decide)
  have h2 := h.2 entryC7 (by decide) (by decide) (by decide)
  exact ⟨h.1, h2.1, h2.2⟩

/-- Claim C7 (counterexample): the first call stores the empty dict under
the order-independent key; the reordered second call finds the valid
unexpired entry but — `{}` being falsy — invokes its own fetch function
anyway. -/
theorem c7_counterexample :
    ((get_or_fetch envEmptyFetch [] "search" 24
        [("n", "10"), ("q", "x")]).db.find?
        (fun e => e.cache_key
            == generate_cache_key "search" [("q", "x"), ("n", "10")]
          && decide (envEmptyFetch.now < e.expires_at))).isSome = true
    ∧ (get_or_fetch envEmptyFetch
        (get_or_fetch envEmptyFetch [] "search" 24 [("n", "10"), ("q", "x")]).db
        "search" 24 [("q", "x"), ("n", "10")]).fetchInvoked = true := by
  refine ⟨by decide, by decide⟩

/-- Claim C8: if the fetch function raises on a cache miss,
`get_or_fetch` returns the empty payload, the store is unchanged (no
entry is created or updated for the key), and a later `get_or_fetch` for
the same (source, params) — at any time, with any fetch behaviour — is
again a miss that invokes its fetch function. -/
theorem c8_fetch_failure_not_cached (env env2 : CacheEnv) (db : Store)
    (source : String) (hours hours2 : Nat) (params : Params) (m : String)
    (hraise : env.fetchResult = .raise m)
    (habsent : db.find?
      (fun e => e.cache_key == generate_cache_key source params) = none) :
    (get_or_fetch env db source hours params).payload = []
    ∧ (get_or_fetch env db source hours params).db = db
    ∧ (get_or_fetch env db source hours params).fetchInvoked = true
    ∧ (get_or_fetch env2 db source hours2 params).fetchInvoked = true := by
  have hmiss1 := get_from_cache_none_of_absent env.now db
    (generate_cache_key source params) habsent
  have hmiss2 := get_from_cache_none_of_absent env2.now db
    (generate_cache_key source params) habsent
  refine ⟨?_, ?_, ?_, ?_⟩
  · simp [get_or_fetch, hmiss1, pyTruthy, hraise]
  · simp [get_or_fetch, hmiss1, pyTruthy, hraise]
  · simp [get_or_fetch, hmiss1, pyTruthy, hraise]
  · cases hf : env2.fetchResult <;> simp [get_or_fetch, hmiss2, pyTruthy, hf]

/-- Claim C8 (witness): concrete failing fetch on an empty cache. -/
theorem c8_witness :
    (get_or_fetch envC8 [] "youtube" 24 [("q", "rust")]).payload = []
    ∧ (get_or_fetch envC8 [] "youtube" 24 [("q", "rust")]).db = []
    ∧ (get_or_fetch envC8 [] "youtube" 24 [("q", "rust")]).fetchInvoked = true
    ∧ (get_or_fetch envC8retry [] "youtube" 24 [("q", "rust")]).fetchInvoked
        = true :=
  c8_fetch_failure_not_cached envC8 envC8retry [] "youtube" 24 24
    [("q", "rust")] "ConnectionError" rfl rfl

/-- Claim C10: if on a miss the fetch succeeds but committing the entry
to the store fails, `_store_in_cache` rolls the transaction back and
swallows the exception, and `get_or_fetch` still returns the freshly
fetched payload with the store unchanged. -/
theorem c10_storage_failure_invisible (env : CacheEnv) (db : Store)
    (source : String) (hours : Nat) (params : Params) (p : Payload)
    (hok : env.fetchResult = .ok p) (hfail : env.storeCommitFails = true)
    (hmiss : pyTruthy
      (get_from_cache env.now db (generate_cache_key source params)) = false) :
    (get_or_fetch env db source hours params).payload = p
    ∧ (get_or_fetch env db source hours params).db = db := by
  constructor <;> simp [get_or_fetch, hmiss, hok, store_in_cache, hfail]

/-- Claim C10 (witness): concrete storage failure on an empty cache. -/
theorem c10_witness :
    (get_or_fetch envC10 [] "hackernews" 24 [("q", "ai")]).payload
        = [("payload", "fresh")]
    ∧ (get_or_fetch envC10 [] "hackernews" 24 [("q", "ai")]).db = [] :=
  c10_storage_failure_invisible envC10 [] "hackernews" 24 [("q", "ai")]
    [("payload", "fresh")] rfl rfl rfl

end MRCache

namespace StockDB

/-- Claim C9: after `invalidate_cache` for a symbol and data type, every
matching row is retained with `is_valid = false` (no row is deleted, the
other columns are untouched), and the next `get_cached_data` for such a
key returns `None` — the miss signal that makes the caller fetch live —
even when the invalidated entry had not expired by TTL. -/
theorem c9_invalidate_soft_delete (db : List StockCacheEntry)
    (sym dt query : String) (now maxage : Nat) :
    ((invalidate_cache db (some sym) (some dt)).1).length = db.length
    ∧ (∀ e, e ∈ db → invalidateMatches (some sym) (some dt) e = true →
        { e with is_valid := false } ∈ (invalidate_cache db (some sym) (some dt)).1)
    ∧ (get_cached_data now (invalidate_cache db (some sym) (some dt)).1
        sym query dt maxage).1 = none := by
  refine ⟨?_, ?_, ?_⟩
  · simp [invalidate_cache]
  · intro e he hm
    have hmem := List.mem_map_of_mem
      (fun e => if invalidateMatches (some sym) (some dt) e
        then { e with is_valid := false } else e) he
    simpa [invalidate_cache, hm] using hmem
  · have hnone : ((invalidate_cache db (some sym) (some dt)).1).find?
        (stockEntryMatches now sym query dt maxage) = none := by
      apply List.find?_eq_none.mpr
      intro x hx
      simp only [invalidate_cache, List.mem_map] at hx
      obtain ⟨e, he, rfl⟩ := hx
      by_cases hm : invalidateMatches (some sym) (some dt) e = true
      · simp [hm, stockEntryMatches]
      · simp only [hm, if_false]
        intro hcon
        apply hm
        simp only [stockEntryMatches, Bool.and_eq_true] at hcon
        simp only [invalidateMatches, Bool.and_eq_true]
        exact ⟨hcon.1.1.1.1.1, hcon.1.1.1.1.2⟩
    simp [get_cached_data, hnone]

/-- Claim C9 (witness): soft invalidation of a concrete one-row table
whose entry is far from expiry (`now = 6 < 100 = expires_at`). -/
theorem c9_witness :
    ((invalidate_cache [entryC9] (some "aapl") (some "search_data")).1).length
        = [entryC9].length
    ∧ { entryC9 with is_valid := false }
        ∈ (invalidate_cache [entryC9] (some "aapl") (some "search_data")).1
    ∧ (get_cached_data 6
        (invalidate_cache [entryC9] (some "aapl") (some "search_data")).1
        "aapl" "AAPL latest financials" "search_data" 24).1 = none := by
  have h := c9_invalidate_soft_delete [entryC9] "aapl" "search_data"
    "AAPL latest financials" 6 24
  exact ⟨h.1, h.2.1 entryC9 (List.mem_singleton.mpr rfl) (by decide), h.2.2⟩

end StockDB
